import Mathlib

/-!
Shallow embedding of the core of the cpp-test-runner repository.

The embedding follows the Rust sources:
- ElfParser models crates/elf_parser/src/lib.rs (binary reader).
- Finder models crates/cpp_test_runner/src/executable_finder.rs
  (parse_test_executable, the classifier).
- TestParser models crates/cpp_test_runner/src/test_parser.rs
  (find_file and the per-framework test enumeration).
- Runner models crates/gtest_runner/src/test_runner.rs (run_all).

Modelling conventions:
- a file's on-disk content is a List Nat of byte values;
- Rust machine integers become Nat (all the decoded fields are unsigned and
  only compared or used as offsets, so no wrap-around arithmetic occurs);
- fallible operations return Except/Option; an unwrap that can fail at run
  time is modelled as an explicit panicked error value;
- child-process invocations are modelled by an environment record carrying
  the outcome each invocation would produce (exit status and captured
  streams), and serde_json parsing is an external collaborator modelled as
  an environment function from the raw stream text to the parsed value;
- strings are Lean String; Rust str::len is byte length while String.length
  is character count, which agree on the ASCII data handled here.
-/

namespace ElfParser

/-- Errors of the binary reader, mirroring elf_parser::Error. -/
inductive ElfError where
  | ioError
  | notAnElf
  | not64Bits
  | notLittleEndian
deriving DecidableEq, Repr

/-- Rust slice lookup data.get(off..off+n): some iff the range is in bounds. -/
def sliceGet (data : List Nat) (off n : Nat) : Option (List Nat) :=
  if off + n ≤ data.length then some ((data.drop off).take n) else none

/-- u64/u32/u16/u8::from_le_bytes on a little-endian byte list. -/
def fromLeBytes (l : List Nat) : Nat :=
  l.foldr (fun b acc => b + 256 * acc) 0

/-- u64/u32/u16/u8::from_be_bytes on a big-endian byte list. -/
def fromBeBytes (l : List Nat) : Nat :=
  l.foldl (fun acc b => acc * 256 + b) 0

/-- FetchInteger::get_uN: read n bytes at a fixed offset of the block,
decoded with the endianness flag of the block. -/
def getUN (le : Bool) (data : List Nat) (off n : Nat) : Option Nat :=
  (sliceGet data off n).map (fun s => if le then fromLeBytes s else fromBeBytes s)

def getU8 (le : Bool) (data : List Nat) (off : Nat) : Option Nat :=
  getUN le data off 1

def getU16 (le : Bool) (data : List Nat) (off : Nat) : Option Nat :=
  getUN le data off 2

def getU32 (le : Bool) (data : List Nat) (off : Nat) : Option Nat :=
  getUN le data off 4

def getU64 (le : Bool) (data : List Nat) (off : Nat) : Option Nat :=
  getUN le data off 8

/-- The 64-byte ELF file header block. -/
structure Header where
  buffer : List Nat
deriving DecidableEq, Repr

/-- Header::is_little_endian: byte 5 of the header equals 1. -/
def Header.isLittleEndian (h : Header) : Bool :=
  h.buffer.getD 5 0 == 1

/-- Header::e_type_is_64_bits: the class byte at offset 4 equals 2.
The field accessors unwrap; on the 64-byte buffer built by Elf.new the
read is always in bounds, so the default of getD 0 is never produced. -/
def Header.e_type_is_64_bits (h : Header) : Bool :=
  (getU8 h.isLittleEndian h.buffer 0x4).getD 0 == 2

/-- Header::e_type at offset 0x10. -/
def Header.e_type (h : Header) : Nat :=
  (getU16 h.isLittleEndian h.buffer 0x10).getD 0

/-- Header::e_shoff at offset 0x28. -/
def Header.e_shoff (h : Header) : Nat :=
  (getU64 h.isLittleEndian h.buffer 0x28).getD 0

/-- Header::e_shnum at offset 0x3C. -/
def Header.e_shnum (h : Header) : Nat :=
  (getU16 h.isLittleEndian h.buffer 0x3C).getD 0

/-- An open ELF handle: the parsed header plus the file content. -/
structure Elf where
  header : Header
  file : List Nat
deriving DecidableEq, Repr

/-- File::read_exact_at of n bytes at offset off: succeeds exactly when the
file holds the whole requested range. -/
def readExactAt (file : List Nat) (off n : Nat) : Except ElfError (List Nat) :=
  if off + n ≤ file.length then .ok ((file.drop off).take n) else .error .ioError

/-- Elf::new: read the fixed 64-byte header, check the magic signature,
then check the 64-bit class byte. -/
def Elf.new (bytes : List Nat) : Except ElfError Elf :=
  match readExactAt bytes 0 64 with
  | .error e => .error e
  | .ok header_buffer =>
    if header_buffer.take 4 = [0x7F, 0x45, 0x4C, 0x46] then
      let executable : Elf := { header := { buffer := header_buffer }, file := bytes }
      if executable.header.e_type_is_64_bits then .ok executable
      else .error .not64Bits
    else .error .notAnElf

/-- A 64-byte section header record; its fields are read as little-endian. -/
structure SectionHeader where
  data : List Nat
deriving DecidableEq, Repr

def SectionHeader.sh_type (s : SectionHeader) : Nat :=
  (getU32 true s.data 0x04).getD 0

def SectionHeader.sh_offset (s : SectionHeader) : Nat :=
  (getU64 true s.data 0x18).getD 0

def SectionHeader.sh_size (s : SectionHeader) : Nat :=
  (getU64 true s.data 0x20).getD 0

def SectionHeader.sh_link (s : SectionHeader) : Nat :=
  (getU32 true s.data 0x28).getD 0

structure SectionHeaders where
  headers : List SectionHeader
deriving DecidableEq, Repr

/-- Split a byte list into n consecutive records of the given size
(the bytemuck reinterpretation of a bulk read buffer). -/
def chunkRecords (size : Nat) : Nat → List Nat → List (List Nat)
  | 0, _ => []
  | n + 1, bytes => bytes.take size :: chunkRecords size n (bytes.drop size)

/-- Elf::get_all_section_headers: one bulk read of e_shnum 64-byte records
at offset e_shoff, reinterpreted in place. -/
def Elf.get_all_section_headers (e : Elf) : Except ElfError SectionHeaders :=
  match readExactAt e.file e.header.e_shoff (e.header.e_shnum * 64) with
  | .error err => .error err
  | .ok bytes =>
    .ok { headers := (chunkRecords 64 e.header.e_shnum bytes).map SectionHeader.mk }

/-- SectionHeaders::find_symbol_table_header: first header of type 2. -/
def SectionHeaders.find_symbol_table_header (s : SectionHeaders) : Option SectionHeader :=
  s.headers.find? (fun h => h.sh_type == 2)

/-- Elf64Sym: a 24-byte symbol record. -/
structure Elf64Sym where
  st_name : Nat
  st_info : Nat
  st_other : Nat
  st_shndx : Nat
  st_value : Nat
  st_size : Nat
deriving DecidableEq, Repr

/-- Reinterpret 24 bytes as an Elf64Sym (little-endian target layout). -/
def decodeElf64Sym (bytes : List Nat) : Elf64Sym :=
  { st_name := (getU32 true bytes 0).getD 0
    st_info := bytes.getD 4 0
    st_other := bytes.getD 5 0
    st_shndx := (getU16 true bytes 6).getD 0
    st_value := (getU64 true bytes 8).getD 0
    st_size := (getU64 true bytes 16).getD 0 }

structure StringTable where
  data : List Nat
deriving DecidableEq, Repr

inductive Section where
  | Symbols : List Elf64Sym → Section
  | Strings : StringTable → Section
  | NotImplemented
deriving DecidableEq, Repr

/-- Elf::get_section: dispatch on the section type; type 2 is a symbol
table of sh_size / 24 records, type 3 is a raw string blob, anything else
is the NotImplemented no-op variant. -/
def Elf.get_section (e : Elf) (sh : SectionHeader) : Except ElfError Section :=
  if sh.sh_type == 2 then
    match readExactAt e.file sh.sh_offset (sh.sh_size / 24 * 24) with
    | .error err => .error err
    | .ok bytes =>
      .ok (.Symbols ((chunkRecords 24 (sh.sh_size / 24) bytes).map decodeElf64Sym))
  else if sh.sh_type == 3 then
    match readExactAt e.file sh.sh_offset sh.sh_size with
    | .error err => .error err
    | .ok bytes => .ok (.Strings { data := bytes })
  else .ok .NotImplemented

/-- StringTable::get_symbol_name: slice the blob from st_name (none when the
offset is past the end, as for Rust data.get(idx..)), then take the bytes
before the first NUL (none when the slice holds no NUL, as for
CStr::from_bytes_until_nul). -/
def StringTable.get_symbol_name (st : StringTable) (symbol : Elf64Sym) : Option (List Nat) :=
  if symbol.st_name ≤ st.data.length then
    let slice := st.data.drop symbol.st_name
    if slice.contains 0 then some (slice.takeWhile (fun b => b != 0)) else none
  else none

end ElfParser

namespace Finder

open ElfParser

/-- cpp_test_runner::types::ExecutableType. -/
inductive ExecutableType where
  | Gtest
  | Catch2
deriving DecidableEq, Repr

/-- The result of std::fs::Metadata::created: some nanoseconds since the
epoch, or none when the filesystem reports no creation time. -/
structure FileMetadata where
  created : Option Nat
deriving DecidableEq, Repr

/-- The filesystem metadata environment of a candidate file: none models a
failing Path::metadata call. -/
structure FileMeta where
  metadata : Option FileMetadata
deriving DecidableEq, Repr

/-- cpp_test_runner::types::Executable (path kept as its display string). -/
structure Executable where
  path : String
  modified : Nat
  executable_type : ExecutableType
deriving DecidableEq, Repr

/-- str::contains on byte lists (the marker needles are plain ASCII, so the
lossy UTF-8 decoding of the symbol name is modelled at the byte level). -/
def bytesContain (haystack needle : List Nat) : Bool :=
  haystack.tails.any (fun t => needle.isPrefixOf t)

/-- The bytes of an ASCII string literal. -/
def strBytes (s : String) : List Nat :=
  s.data.map Char.toNat

/-- Errors of parse_test_executable: a propagated binary-reader error, the
bail "Invalid ELF" (the MalformedBinary of the design taxonomy), or a
panic from an unwrap. -/
inductive FinderError where
  | elf : ElfError → FinderError
  | invalidElf
  | panicked
deriving DecidableEq, Repr

/-- The classification chain of parse_test_executable before the Executable
record is built: open the binary, require e_type 2 or 3, read the section
headers, find the symbol table, resolve the string table through sh_link
(bailing when the index is out of range), read both sections, and scan the
symbol names for the framework marker substrings. -/
def find_test_executable_type (bytes : List Nat) (is_gtest_enabled is_catch2_enabled : Bool) :
    Except FinderError (Option ExecutableType) :=
  match Elf.new bytes with
  | .error e => .error (.elf e)
  | .ok elf =>
    let elf_type := elf.header.e_type
    if elf_type != 2 && elf_type != 3 then .ok none
    else
      match elf.get_all_section_headers with
      | .error e => .error (.elf e)
      | .ok all_section_headers =>
        match all_section_headers.find_symbol_table_header with
        | none => .ok none
        | some symbol_table_header =>
          match all_section_headers.headers.get? symbol_table_header.sh_link with
          | none => .error .invalidElf
          | some string_table_header =>
            match elf.get_section symbol_table_header with
            | .error e => .error (.elf e)
            | .ok (Section.Strings _) => .error .invalidElf
            | .ok Section.NotImplemented => .error .invalidElf
            | .ok (Section.Symbols symbols) =>
              match elf.get_section string_table_header with
              | .error e => .error (.elf e)
              | .ok (Section.Symbols _) => .error .invalidElf
              | .ok Section.NotImplemented => .error .invalidElf
              | .ok (Section.Strings strings) =>
                .ok (symbols.findSome? (fun symbol =>
                  (strings.get_symbol_name symbol).bind (fun name =>
                    if is_gtest_enabled && bytesContain name (strBytes "InitGoogleTest") then
                      some ExecutableType.Gtest
                    else if is_catch2_enabled && bytesContain name (strBytes "Catch2") then
                      some ExecutableType.Catch2
                    else none)))

/-- parse_test_executable: run the classification chain; when a framework
marker was found, build the Executable, reading the file's creation time
through unwrapped metadata() and created() calls (a failure of either is a
panic, modelled as the panicked error). -/
def parse_test_executable (bytes : List Nat) (meta : FileMeta) (path : String)
    (is_gtest_enabled is_catch2_enabled : Bool) : Except FinderError (Option Executable) :=
  match find_test_executable_type bytes is_gtest_enabled is_catch2_enabled with
  | .error e => .error e
  | .ok none => .ok none
  | .ok (some test_executable_type) =>
    match meta.metadata with
    | none => .error .panicked
    | some m =>
      match m.created with
      | none => .error .panicked
      | some created =>
        .ok (some { path := path, modified := created, executable_type := test_executable_type })

end Finder

namespace TestParser

open Finder

/-- The filesystem as seen by find_file: existence and regular-file tests
plus Path::canonicalize (none models a canonicalization failure). A path is
the component list of an absolute path, the root being the empty list. -/
structure Fs where
  pathExists : List String → Bool
  isFile : List String → Bool
  canonical : List String → Option (List String)

/-- A declared source path: its is_absolute flag and its components. -/
structure FsPath where
  absolute : Bool
  components : List String
deriving DecidableEq, Repr

/-- The upward search loop of find_file, on the reversed component list of
the current directory so that taking the parent is structural: join the
current directory with the sought relative path and stop at the first join
that exists and is a file; at the root a failed check breaks with none. -/
def find_file_loop (fs : Fs) (to_find : List String) : List String → Option (List String)
  | [] =>
    if fs.pathExists to_find && fs.isFile to_find then some to_find else none
  | c :: rest =>
    let absolute_file_path := (c :: rest).reverse ++ to_find
    if fs.pathExists absolute_file_path && fs.isFile absolute_file_path then
      some absolute_file_path
    else find_file_loop fs to_find rest

/-- find_file: an absolute path is taken as is, a relative one is searched
upward from search_start; the found path is then canonicalized, a
canonicalization failure giving none. -/
def find_file (fs : Fs) (search_start : List String) (to_find : FsPath) :
    Option (List String) :=
  let file :=
    if to_find.absolute then some to_find.components
    else find_file_loop fs to_find.components search_start.reverse
  file.bind fs.canonical

/-- The structured gtest listing: one entry of testsuite. -/
structure GtestTest where
  name : String
  file : FsPath
  line : Nat
deriving DecidableEq, Repr

structure GtestTestSuite where
  name : String
  testsuite : List GtestTest
deriving DecidableEq, Repr

structure GtestJson where
  testsuites : List GtestTestSuite
deriving DecidableEq, Repr

structure Catch2SourceLocation where
  filename : FsPath
  line : Nat
deriving DecidableEq, Repr

structure Catch2Test where
  name : String
  source_location : Catch2SourceLocation
deriving DecidableEq, Repr

structure Catch2Listings where
  tests : List Catch2Test
deriving DecidableEq, Repr

structure Catch2Json where
  listings : Catch2Listings
deriving DecidableEq, Repr

/-- cpp_test_runner::types::Test. The resolved file is a canonical absolute
path (component list); index is only set by the interactive selector. -/
structure Test where
  name : String
  file : Option (List String)
  line : Option Nat
  executable : Executable
  arguments : List String
  index : Option Nat
deriving DecidableEq, Repr

/-- The outcome of one child-process invocation: exit-status success and the
captured output streams. -/
structure ProcessOutput where
  statusSuccess : Bool
  stdout : String
  stderr : String
deriving DecidableEq, Repr

/-- Enumeration failures: a propagated io error from Command::output, or one
of the bail messages of test_parser.rs. -/
inductive EnumError where
  | ioError
  | notAGtestExecutable
  | gtestParseFailed
  | notACatch2Executable
  | catch2ParseFailed
deriving DecidableEq, Repr

/-- The single Test built in executables-only mode: named by the
executable's own path, no file/line, the extra arguments verbatim. -/
def exec_only_test (executable : Executable) (extra_args : List String) : Test :=
  { name := executable.path
    file := none
    line := none
    executable := executable
    arguments := extra_args
    index := none }

/-- filter.map(is_match).unwrap_or(true): the regex is abstracted as a
predicate on the matched string. -/
def passes_filter (filter : Option (String → Bool)) (name : String) : Bool :=
  match filter with
  | some f => f name
  | none => true

/-- The Test built for one gtest case: the synthesized qualified name, the
resolved declared file, and the argument list of the filter flag for that
name, the also-run-disabled flag, then all extra arguments. -/
def mk_gtest_test (executable : Executable) (extra_args : List String) (fs : Fs)
    (exec_parent : List String) (suite_name : String) (t : GtestTest) : Test :=
  let name := suite_name ++ "." ++ t.name
  { name := name
    file := find_file fs exec_parent t.file
    line := some t.line
    executable := executable
    arguments := ["--gtest_filter=" ++ name, "--gtest_also_run_disabled_tests"] ++ extra_args
    index := none }

/-- The per-case enumeration of the parsed gtest listing: for each suite,
keep the cases whose case name passes the filter, then build their Tests. -/
def gtest_case_tests (executable : Executable) (extra_args : List String) (fs : Fs)
    (exec_parent : List String) (filter : Option (String → Bool)) (json : GtestJson) :
    List Test :=
  json.testsuites.flatMap (fun test_suite =>
    (test_suite.testsuite.filter (fun t => passes_filter filter t.name)).map
      (mk_gtest_test executable extra_args fs exec_parent test_suite.name))

/-- The process environment of a gtest enumeration: the outcome of the
listing invocation (none models a Command::output io failure) and the serde
JSON parse of its stderr text. -/
structure GtestProcessEnv where
  listOutput : Option ProcessOutput
  parseGtestJson : String → Option GtestJson

/-- get_tests_from_gtest_executable: invoke the listing, bail on a non-zero
exit or an unparsable listing, then either synthesize the single
executables-only Test or enumerate the cases. -/
def get_tests_from_gtest_executable (executable : Executable) (executable_only : Bool)
    (extra_args : List String) (filter : Option (String → Bool)) (env : GtestProcessEnv)
    (fs : Fs) (exec_parent : List String) : Except EnumError (List Test) :=
  match env.listOutput with
  | none => .error .ioError
  | some output =>
    if !output.statusSuccess then .error .notAGtestExecutable
    else
      match env.parseGtestJson output.stderr with
      | none => .error .gtestParseFailed
      | some json =>
        if executable_only then .ok [exec_only_test executable extra_args]
        else .ok (gtest_case_tests executable extra_args fs exec_parent filter json)

/-- Split a character list at every occurrence of the separator character
(the pieces list is never empty). -/
def splitOnChar (c : Char) : List Char → List (List Char)
  | [] => [[]]
  | x :: xs =>
    match splitOnChar c xs with
    | [] => [[]]
    | h :: t => if x == c then [] :: h :: t else (x :: h) :: t

/-- str::lines: split on newline, strip a trailing carriage return from each
line, and produce no final empty line for a newline-terminated string. -/
def rustLines (s : String) : List String :=
  match s.data with
  | [] => []
  | l =>
    let parts := splitOnChar (Char.ofNat 10) l
    let parts := if parts.getLast? = some [] then parts.dropLast else parts
    parts.map (fun cs =>
      String.mk (if cs.getLast? = some (Char.ofNat 13) then cs.dropLast else cs))

/-- str::split_once on a character list: the pieces before and after the
first occurrence of the separator, none when it does not occur. -/
def splitOnceChar (c : Char) : List Char → Option (List Char × List Char)
  | [] => none
  | x :: xs =>
    if x == c then some ([], xs)
    else (splitOnceChar c xs).map (fun p => (x :: p.1, p.2))

/-- str::split_once at the first colon. -/
def split_once_colon (line : String) : Option (String × String) :=
  (splitOnceChar (Char.ofNat 58) line.data).map (fun p => (String.mk p.1, String.mk p.2))

/-- The whitespace stripped by str::trim (the ASCII whitespace relevant to
the values compared here). -/
def isWhitespaceChar (c : Char) : Bool :=
  c == Char.ofNat 32 || c == Char.ofNat 9 || c == Char.ofNat 10 || c == Char.ofNat 13

/-- str::trim: drop whitespace from both ends. -/
def rustTrim (s : String) : String :=
  String.mk (((s.data.dropWhile isWhitespaceChar).reverse.dropWhile
    isWhitespaceChar).reverse)

/-- str::starts_with a literal. -/
def rustStartsWith (pre s : String) : Bool :=
  pre.data.isPrefixOf s.data

/-- The --libidentify check: some stdout line splits at a colon into a key
trimming to "framework" and a value trimming to "Catch2". -/
def is_catch2_identify_output (stdout : String) : Bool :=
  (rustLines stdout).any (fun line =>
    match split_once_colon line with
    | some (key, value) => rustTrim key == "framework" && rustTrim value == "Catch2"
    | none => false)

/-- The Test built for one catch2 test: its own name, the resolved declared
file, and an argument list of exactly the test name. -/
def mk_catch2_test (executable : Executable) (fs : Fs) (exec_parent : List String)
    (t : Catch2Test) : Test :=
  { name := t.name
    file := find_file fs exec_parent t.source_location.filename
    line := some t.source_location.line
    executable := executable
    arguments := [t.name]
    index := none }

/-- The process environment of a catch2 enumeration: the outcomes of the
--libidentify probe and of the --list-tests invocation, and the serde JSON
parse of the listing stdout. -/
structure Catch2ProcessEnv where
  identifyOutput : Option ProcessOutput
  listOutput : Option ProcessOutput
  parseCatch2Json : String → Option Catch2Json

/-- get_tests_from_catch2_executable: probe with --libidentify, returning an
empty list when the probe exits non-zero or does not report Catch2; then
either synthesize the single executables-only Test or invoke and parse the
listing and enumerate the filtered tests. -/
def get_tests_from_catch2_executable (executable : Executable) (executable_only : Bool)
    (extra_args : List String) (filter : Option (String → Bool)) (env : Catch2ProcessEnv)
    (fs : Fs) (exec_parent : List String) : Except EnumError (List Test) :=
  match env.identifyOutput with
  | none => .error .ioError
  | some output =>
    let is_catch2_executable :=
      if !output.statusSuccess then false
      else is_catch2_identify_output output.stdout
    if !is_catch2_executable then .ok []
    else if executable_only then .ok [exec_only_test executable extra_args]
    else
      match env.listOutput with
      | none => .error .ioError
      | some list_output =>
        if !list_output.statusSuccess then .error .notACatch2Executable
        else
          match env.parseCatch2Json list_output.stdout with
          | none => .error .catch2ParseFailed
          | some json =>
            .ok ((json.listings.tests.filter (fun t => passes_filter filter t.name)).map
              (mk_catch2_test executable fs exec_parent))

end TestParser

namespace Runner

/-- The abort of a worker on an arithmetic underflow panic. -/
inductive RunPanic where
  | panicked
deriving DecidableEq, Repr

/-- One completed child process of run_all: the test's name, whether its
exit status was success, and its captured stdout. run_all runs the tests
concurrently; the model takes the completions in the order the mutex on the
print-sequence counter serializes them, which is some permutation of the
submitted tests. Spawn failures (output().unwrap()) and the color flag
pushed onto the arguments are outside this model: the completions are
outcomes of already-spawned processes, and lines are modelled uncolored. -/
structure Completion where
  name : String
  passed : Bool
  stdout : String
deriving DecidableEq, Repr

/-- A run of n dots. -/
def dots (n : Nat) : String :=
  String.mk (List.replicate n '.')

/-- One progress line: the prefix part "[k/n] name " and status part
" PASSED"/" FAILED" around dot padding computed by the unchecked usize
subtraction 120 - first.length - last.length; none models the underflow
panic when the parts already exceed 120 characters. -/
def format_status_line (k n : Nat) (name : String) (passed : Bool) : Option String :=
  let to_print_first_part := "[" ++ toString k ++ "/" ++ toString n ++ "] " ++ name ++ " "
  let to_print_last_part : String := if passed then " PASSED" else " FAILED"
  if to_print_first_part.length + to_print_last_part.length ≤ 120 then
    let number_of_chars_missing :=
      120 - to_print_first_part.length - to_print_last_part.length
    some (to_print_first_part ++ dots number_of_chars_missing ++ to_print_last_part)
  else none

/-- The serialized printing loop of run_all: each completion increments the
mutex-protected counter and prints its line, a failed test additionally
printing its trimmed stdout beneath; an underflow panic aborts. The result
pairs each printed line with its print-sequence number. -/
def run_print_loop (n : Nat) : Nat → List Completion → Except RunPanic (List (Nat × String))
  | _, [] => .ok []
  | test_num, c :: rest =>
    let k := test_num + 1
    match format_status_line k n c.name c.passed with
    | none => .error .panicked
    | some first_line =>
      let to_print :=
        if c.passed then first_line
        else first_line ++ "\n\n" ++ c.stdout.trim ++ "\n"
      match run_print_loop n k rest with
      | .error e => .error e
      | .ok rest_lines => .ok ((k, to_print) :: rest_lines)

/-- The pluralization of the summary: "tests" when the count exceeds 1,
"test" otherwise. -/
def count_word (n : Nat) : String :=
  if 1 < n then "tests" else "test"

/-- The aggregate summary line printed after all tests completed. -/
def summary_line (num_tests_passed num_tests_failed : Nat) : String :=
  toString num_tests_passed ++ " " ++ count_word num_tests_passed ++ " passed, " ++
    toString num_tests_failed ++ " " ++ count_word num_tests_failed ++ " failed"

/-- run_all: print one progress line per completion under the serializing
counter, then the summary, the failed count being the test count minus the
atomically accumulated passed count. -/
def run_all (completions : List Completion) :
    Except RunPanic (List (Nat × String) × String) :=
  match run_print_loop completions.length 0 completions with
  | .error e => .error e
  | .ok progress =>
    let num_tests_passed := (completions.filter (fun c => c.passed)).length
    let num_tests_failed := completions.length - num_tests_passed
    .ok (progress, summary_line num_tests_passed num_tests_failed)

end Runner

open ElfParser Finder TestParser Runner

/-- A 128-byte ELF image: a valid 64-bit header of type 2 declaring one
section header at offset 64, which is a symbol table whose sh_link is the
out-of-range index 99. -/
def badLinkElfBytes : List Nat :=
  [0x7F, 0x45, 0x4C, 0x46, 2, 1] ++ List.replicate 10 0
    ++ [2, 0] ++ List.replicate 22 0
    ++ [64] ++ List.replicate 7 0
    ++ List.replicate 12 0
    ++ [1, 0, 0, 0]
    ++ ([0, 0, 0, 0, 2, 0, 0, 0] ++ List.replicate 32 0 ++ [99, 0, 0, 0]
      ++ List.replicate 20 0)

/-- A 231-byte ELF image of a gtest binary: a 64-bit type-2 header declaring
two section headers at offset 64, a symbol table (type 2, one 24-byte
symbol, link 1) at offset 192, and its string table (type 3) at offset 216
holding the NUL-terminated name "InitGoogleTest". -/
def gtestElfBytes : List Nat :=
  [0x7F, 0x45, 0x4C, 0x46, 2, 1] ++ List.replicate 10 0
    ++ [2, 0] ++ List.replicate 22 0
    ++ [64] ++ List.replicate 7 0
    ++ List.replicate 12 0
    ++ [2, 0, 0, 0]
    ++ ([0, 0, 0, 0, 2, 0, 0, 0] ++ List.replicate 16 0
      ++ [192, 0, 0, 0, 0, 0, 0, 0] ++ [24, 0, 0, 0, 0, 0, 0, 0]
      ++ [1, 0, 0, 0] ++ List.replicate 20 0)
    ++ ([0, 0, 0, 0, 3, 0, 0, 0] ++ List.replicate 16 0
      ++ [216, 0, 0, 0, 0, 0, 0, 0] ++ [15, 0, 0, 0, 0, 0, 0, 0]
      ++ List.replicate 24 0)
    ++ List.replicate 24 0
    ++ (strBytes "InitGoogleTest" ++ [0])

/-- The ancestor chain of a directory: the directory itself, then its
successive parent directories, ending at the filesystem root (the empty
component list). -/
def dirAncestors : List String → List (List String)
  | [] => [[]]
  | c :: rest => (c :: rest) :: dirAncestors (c :: rest).dropLast
termination_by d => d.length
decreasing_by simp

/-- The same chain computed from the reversed component list, matching the
shape of find_file_loop. -/
def revDirAncestors : List String → List (List String)
  | [] => [[]]
  | c :: rest => (c :: rest).reverse :: revDirAncestors rest

/-- All (suite name, case) pairs of a parsed gtest listing, in listing
order. -/
def gtest_suite_case_pairs (json : GtestJson) : List (String × GtestTest) :=
  json.testsuites.flatMap (fun s => s.testsuite.map (fun t => (s.name, t)))

/-- The per-case argument list as the spec words it: the filter flag for
the qualified name, the also-run-disabled flag, then the extra arguments
that do not themselves specify a filter. -/
def spec_args_excluding_filter (name : String) (extra_args : List String) : List String :=
  ["--gtest_filter=" ++ name, "--gtest_also_run_disabled_tests"] ++
    extra_args.filter (fun a => !(rustStartsWith "--gtest_filter=" a))

/-- Grammatically correct English pluralization: "test" exactly for the
count 1, "tests" otherwise (also for 0). -/
def english_count_word (n : Nat) : String :=
  if n = 1 then "test" else "tests"

/-- The summary line with grammatically correct singular/plural wording. -/
def english_summary_line (num_tests_passed num_tests_failed : Nat) : String :=
  toString num_tests_passed ++ " " ++ english_count_word num_tests_passed ++ " passed, " ++
    toString num_tests_failed ++ " " ++ english_count_word num_tests_failed ++ " failed"

/-- The character count of a progress line before dot padding: the prefix
part "[k/n] name " plus the 7-character status part. -/
def status_line_width (k n : Nat) (name : String) : Nat :=
  ("[" ++ toString k ++ "/" ++ toString n ++ "] " ++ name ++ " ").length + 7

/-- A filesystem with no files at all, on which every resolution fails. -/
def fsNone : Fs :=
  { pathExists := fun _ => false, isFile := fun _ => false, canonical := fun _ => none }

/-- A sample classified GoogleTest executable. -/
def sampleExec : Executable :=
  { path := "bin", modified := 0, executable_type := .Gtest }

/-- A parsed gtest listing with one suite "Foo" holding one case "Bar". -/
def fooBarJson : GtestJson :=
  { testsuites :=
      [{ name := "Foo"
         testsuite :=
           [{ name := "Bar", file := { absolute := false, components := ["a.cpp"] }, line := 3 }] }] }

/-- A gtest process environment whose listing invocation succeeds and whose
stderr parses to the given listing. -/
def gtestEnvOf (json : GtestJson) : GtestProcessEnv :=
  { listOutput := some { statusSuccess := true, stdout := "", stderr := "listing" }
    parseGtestJson := fun _ => some json }

/-- A gtest process environment whose listing invocation exits non-zero. -/
def gtestEnvFailing : GtestProcessEnv :=
  { listOutput := some { statusSuccess := false, stdout := "", stderr := "" }
    parseGtestJson := fun _ => none }

/-- A regex matching exactly the qualified name "Foo.Bar" (the predicate of
regex::Regex::is_match for the pattern anchored on that literal). -/
def fooBarExactFilter : String → Bool :=
  fun s => s == "Foo.Bar"

/-- The Test the enumeration builds for the case of fooBarJson with the
extra argument list ["-v"] on the empty filesystem. -/
def fooBarEnumTest : Test :=
  mk_gtest_test sampleExec ["-v"] fsNone [] "Foo"
    { name := "Bar", file := { absolute := false, components := ["a.cpp"] }, line := 3 }

/-- A successful --libidentify outcome reporting Catch2. -/
def catch2IdentifyOut : ProcessOutput :=
  { statusSuccess := true, stdout := "description: x\nframework: Catch2\n", stderr := "" }

/-- A catch2 process environment whose probe succeeds and reports Catch2. -/
def catch2EnvOk : Catch2ProcessEnv :=
  { identifyOutput := some catch2IdentifyOut
    listOutput := none
    parseCatch2Json := fun _ => none }

/-- A catch2 process environment whose probe exits non-zero. -/
def catch2EnvFailing : Catch2ProcessEnv :=
  { identifyOutput := some { statusSuccess := false, stdout := "", stderr := "" }
    listOutput := none
    parseCatch2Json := fun _ => none }

lemma getU8_take64_getD (le : Bool) (bytes : List Nat) (h : 64 ≤ bytes.length) :
    (getU8 le (bytes.take 64) 4).getD 0 = bytes.getD 4 0 := by
  have h4 : 4 < bytes.length := by omega
  unfold getU8 getUN sliceGet
  have hl : (bytes.take 64).length = 64 := by
    rw [List.length_take]; omega
  rw [hl, if_pos (by omega)]
  have hdrop : ((bytes.take 64).drop 4).take 1 = [bytes[4]] := by
    rw [List.drop_take, List.take_take]
    have : min 1 (64 - 4) = 1 := by omega
    rw [this, List.drop_eq_getElem_cons h4]
    rfl
  rw [hdrop]
  cases le <;>
    simp [fromLeBytes, fromBeBytes, List.getD_eq_getElem?_getD, List.getElem?_eq_getElem h4]

lemma elf_new_of_length_ge (bytes : List Nat) (h : 64 ≤ bytes.length) :
    Elf.new bytes =
      (if bytes.take 4 = [0x7F, 0x45, 0x4C, 0x46] then
        (if bytes.getD 4 0 = 2 then
          .ok { header := { buffer := bytes.take 64 }, file := bytes }
        else .error .not64Bits)
      else .error .notAnElf) := by
  unfold Elf.new readExactAt
  rw [if_pos (by omega)]
  simp only [List.drop_zero]
  have htake : (bytes.take 64).take 4 = bytes.take 4 := by
    rw [List.take_take]
    norm_num
  rw [htake]
  by_cases hmagic : bytes.take 4 = [0x7F, 0x45, 0x4C, 0x46]
  · rw [if_pos hmagic, if_pos hmagic]
    have h64 : Header.e_type_is_64_bits { buffer := bytes.take 64 } =
        (bytes.getD 4 0 == 2) := by
      unfold Header.e_type_is_64_bits
      rw [getU8_take64_getD _ _ h]
    rw [h64]
    by_cases h2 : bytes.getD 4 0 = 2
    · simp [h2]
    · simp [h2]
  · rw [if_neg hmagic, if_neg hmagic]

/-- C6: the binary-reader open operation rejects a file shorter than the
fixed 64-byte header size with an io failure, a file whose first four bytes
are not the ELF magic signature as not a binary, and a file whose class
byte at offset 4 is not the 64-bit value 2 as unsupported; a handle is
returned exactly when all three checks pass. (NotAnElf and Not64Bits are
the source's names for the NotABinary and Unsupported64Bit of the design
taxonomy.) -/
theorem elf_open_rejects (bytes : List Nat) :
    ((∃ e, Elf.new bytes = .ok e) ↔
      (64 ≤ bytes.length ∧ bytes.take 4 = [0x7F, 0x45, 0x4C, 0x46] ∧ bytes.getD 4 0 = 2))
    ∧ (bytes.length < 64 → Elf.new bytes = .error .ioError)
    ∧ (64 ≤ bytes.length → bytes.take 4 ≠ [0x7F, 0x45, 0x4C, 0x46] →
        Elf.new bytes = .error .notAnElf)
    ∧ (64 ≤ bytes.length → bytes.take 4 = [0x7F, 0x45, 0x4C, 0x46] → bytes.getD 4 0 ≠ 2 →
        Elf.new bytes = .error .not64Bits) := by
  refine ⟨?_, ?_, ?_, ?_⟩
  · constructor
    · rintro ⟨e, he⟩
      by_cases h : 64 ≤ bytes.length
      · rw [elf_new_of_length_ge bytes h] at he
        refine ⟨h, ?_, ?_⟩
        · by_contra hmagic
          rw [if_neg hmagic] at he
          exact Except.noConfusion he
        · by_cases hmagic : bytes.take 4 = [0x7F, 0x45, 0x4C, 0x46]
          · rw [if_pos hmagic] at he
            by_contra h2
            rw [if_neg h2] at he
            exact Except.noConfusion he
          · rw [if_neg hmagic] at he
            exact Except.noConfusion he
      · unfold Elf.new readExactAt at he
        rw [if_neg (by omega)] at he
        exact Except.noConfusion he
    · rintro ⟨h, hmagic, h2⟩
      rw [elf_new_of_length_ge bytes h, if_pos hmagic, if_pos h2]
      exact ⟨_, rfl⟩
  · intro h
    unfold Elf.new readExactAt
    rw [if_neg (by omega)]
  · intro h hmagic
    rw [elf_new_of_length_ge bytes h, if_neg hmagic]
  · intro h hmagic h2
    rw [elf_new_of_length_ge bytes h, if_pos hmagic, if_neg h2]

/-- Witness for C6: each rejection and the acceptance at concrete files. -/
theorem elf_open_rejects_witness :
    Elf.new [0x7F, 0x45, 0x4C, 0x46] = .error .ioError
    ∧ Elf.new (List.replicate 64 0) = .error .notAnElf
    ∧ Elf.new ([0x7F, 0x45, 0x4C, 0x46, 1, 1] ++ List.replicate 58 0) = .error .not64Bits
    ∧ (Elf.new ([0x7F, 0x45, 0x4C, 0x46, 2, 1] ++ List.replicate 58 0)).isOk = true :=
  ⟨(elf_open_rejects [0x7F, 0x45, 0x4C, 0x46]).2.1 (by decide),
   (elf_open_rejects (List.replicate 64 0)).2.2.1 (by decide) (by decide),
   (elf_open_rejects ([0x7F, 0x45, 0x4C, 0x46, 1, 1] ++ List.replicate 58 0)).2.2.2
     (by decide) (by decide) (by decide),
   by rfl⟩

/-- C3: when classification locates a symbol table section whose link index
is out of range of the section-header table, parse_test_executable fails
hard with the Invalid ELF error (the MalformedBinary of the design
taxonomy) instead of returning the silent not-a-test-binary none. -/
theorem classification_fails_hard_on_bad_link
    (bytes : List Nat) (meta : FileMeta) (path : String) (g c : Bool)
    (elf : Elf) (headers : SectionHeaders) (sth : SectionHeader)
    (h1 : Elf.new bytes = .ok elf)
    (h2 : elf.header.e_type = 2 ∨ elf.header.e_type = 3)
    (h3 : elf.get_all_section_headers = .ok headers)
    (h4 : headers.find_symbol_table_header = some sth)
    (h5 : headers.headers.length ≤ sth.sh_link) :
    parse_test_executable bytes meta path g c = .error .invalidElf := by
  have hcond : (elf.header.e_type != 2 && elf.header.e_type != 3) = false := by
    rcases h2 with h | h <;> simp [h]
  have hget : headers.headers.get? sth.sh_link = none := List.get?_len_le h5
  unfold parse_test_executable find_test_executable_type
  rw [h1]
  simp only [hcond, if_neg Bool.false_ne_true, h3, h4, hget]

set_option maxRecDepth 100000 in
/-- Witness for C3 at the concrete malformed image. -/
theorem classification_fails_hard_on_bad_link_witness :
    parse_test_executable badLinkElfBytes { metadata := none } "bin" true true =
      .error .invalidElf :=
  classification_fails_hard_on_bad_link badLinkElfBytes { metadata := none } "bin"
    true true
    { header := { buffer := badLinkElfBytes.take 64 }, file := badLinkElfBytes }
    { headers := [{ data := (badLinkElfBytes.drop 64).take 64 }] }
    { data := (badLinkElfBytes.drop 64).take 64 }
    (by rfl) (by decide) (by rfl) (by rfl) (by decide)

/-- C10: once the classification chain identifies a candidate as a test
executable, parse_test_executable builds the Executable through unwrapped
metadata() and created() calls: if the metadata read fails, or the
filesystem reports no creation time, it panics instead of returning an
error or excluding the candidate. -/
theorem classification_panics_on_missing_created
    (bytes : List Nat) (path : String) (g c : Bool) (t : ExecutableType)
    (h : find_test_executable_type bytes g c = .ok (some t)) :
    parse_test_executable bytes { metadata := none } path g c = .error .panicked
    ∧ parse_test_executable bytes { metadata := some { created := none } } path g c =
        .error .panicked := by
  constructor <;> (unfold parse_test_executable; rw [h])

set_option maxRecDepth 100000 in
/-- Witness for C10: the concrete gtest image is identified as
GoogleTest-family, and with missing metadata or a missing creation time the
classification panics. -/
theorem classification_panics_on_missing_created_witness :
    parse_test_executable gtestElfBytes { metadata := none } "bin" true true =
      .error .panicked
    ∧ parse_test_executable gtestElfBytes { metadata := some { created := none } }
        "bin" true true = .error .panicked :=
  classification_panics_on_missing_created gtestElfBytes "bin" true true
    ExecutableType.Gtest (by rfl)

lemma dirAncestors_cons_eq (d : List String) (h : d ≠ []) :
    dirAncestors d = d :: dirAncestors d.dropLast := by
  cases d with
  | nil => exact absurd rfl h
  | cons c rest => rw [dirAncestors]

lemma revDirAncestors_eq_dirAncestors (rev : List String) :
    revDirAncestors rev = dirAncestors rev.reverse := by
  induction rev with
  | nil => rw [revDirAncestors, List.reverse_nil, dirAncestors]
  | cons c rest ih =>
    rw [revDirAncestors, ih,
      dirAncestors_cons_eq (c :: rest).reverse (by simp),
      List.reverse_cons, List.dropLast_concat]

lemma find_file_loop_eq_find? (fs : Fs) (to_find : List String) (rev_dir : List String) :
    find_file_loop fs to_find rev_dir =
      ((revDirAncestors rev_dir).map (fun d => d ++ to_find)).find?
        (fun f => fs.pathExists f && fs.isFile f) := by
  induction rev_dir with
  | nil =>
    rw [revDirAncestors]
    simp only [List.map, List.nil_append, List.find?]
    rw [find_file_loop]
    cases h : fs.pathExists to_find && fs.isFile to_find <;> simp [h]
  | cons c rest ih =>
    rw [revDirAncestors]
    simp only [List.map, List.find?]
    rw [find_file_loop]
    cases h : fs.pathExists ((c :: rest).reverse ++ to_find) &&
        fs.isFile ((c :: rest).reverse ++ to_find) <;> simp [h, ih]

lemma gtest_case_tests_eq_pairs (executable : Executable) (extra_args : List String)
    (fs : Fs) (exec_parent : List String) (filter : Option (String → Bool))
    (json : GtestJson) :
    gtest_case_tests executable extra_args fs exec_parent filter json =
      ((gtest_suite_case_pairs json).filter (fun p => passes_filter filter p.2.name)).map
        (fun p => mk_gtest_test executable extra_args fs exec_parent p.1 p.2) := by
  rcases json with ⟨l⟩
  unfold gtest_case_tests gtest_suite_case_pairs
  simp only
  induction l with
  | nil => rfl
  | cons s rest ih =>
    simp only [List.flatMap_cons, List.filter_append, List.map_append, ih]
    congr 1
    rw [List.filter_map, List.map_map]
    rfl

/-- C7: find_file resolves a relative declared path by joining it to each
ancestor directory of the search start in upward order — the first join
that exists and is a regular file wins — and canonicalizes the hit; an
absolute declared path skips the search and is canonicalized as is. When
the root is reached without a match (no candidate passes the check) the
find? is none and so is the result, an unresolved value rather than an
error; a canonicalization failure likewise yields none. -/
theorem find_file_resolution (fs : Fs) (search_start : List String) (to_find : FsPath) :
    find_file fs search_start to_find =
      if to_find.absolute then fs.canonical to_find.components
      else
        (((dirAncestors search_start).map (fun d => d ++ to_find.components)).find?
          (fun f => fs.pathExists f && fs.isFile f)).bind fs.canonical := by
  unfold find_file
  by_cases h : to_find.absolute
  · simp [h]
  · simp only [h, if_false, Bool.false_eq_true]
    rw [find_file_loop_eq_find?, revDirAncestors_eq_dirAncestors, List.reverse_reverse]

/-- Counterexample to C1: the gtest enumeration filters on the bare case
name, not on the synthesized qualified name. For the listing with suite
"Foo" and case "Bar", a filter matching exactly the qualified name
"Foo.Bar" matches the synthesized name, and without a filter the case is
enumerated, yet enumeration with that filter returns no tests. -/
theorem gtest_filter_on_qualified_name_counterexample :
    fooBarExactFilter ("Foo" ++ "." ++ "Bar") = true
    ∧ get_tests_from_gtest_executable sampleExec false ["-v"] none
        (gtestEnvOf fooBarJson) fsNone [] = .ok [fooBarEnumTest]
    ∧ get_tests_from_gtest_executable sampleExec false ["-v"] (some fooBarExactFilter)
        (gtestEnvOf fooBarJson) fsNone [] = .ok [] :=
  ⟨rfl, rfl, rfl⟩

/-- C1 (amended): for a gtest executable whose listing succeeds and parses,
enumeration with a filter includes a case exactly when the filter matches
the bare case name (not the qualified "<suite>.<case>" name) — filtering
happens before argument synthesis — and the output is exactly that subset
of the cases, each included Test built by the same mk_gtest_test record as
in the unfiltered enumeration, so its argument list is unaffected by the
filter. -/
theorem gtest_filter_matches_case_name (executable : Executable)
    (extra_args : List String) (f : String → Bool) (env : GtestProcessEnv) (fs : Fs)
    (exec_parent : List String) (out : ProcessOutput) (json : GtestJson)
    (h1 : env.listOutput = some out) (h2 : out.statusSuccess = true)
    (h3 : env.parseGtestJson out.stderr = some json) :
    get_tests_from_gtest_executable executable false extra_args (some f) env fs exec_parent =
      .ok (((gtest_suite_case_pairs json).filter (fun p => f p.2.name)).map
        (fun p => mk_gtest_test executable extra_args fs exec_parent p.1 p.2))
    ∧ get_tests_from_gtest_executable executable false extra_args none env fs exec_parent =
      .ok ((gtest_suite_case_pairs json).map
        (fun p => mk_gtest_test executable extra_args fs exec_parent p.1 p.2)) := by
  unfold get_tests_from_gtest_executable
  rw [h1]
  simp only [h2, Bool.not_true, Bool.false_eq_true, if_false, h3, Bool.false_eq_true]
  constructor
  · rw [gtest_case_tests_eq_pairs]
    rfl
  · rw [gtest_case_tests_eq_pairs]
    have : (fun p : String × GtestTest => passes_filter none p.2.name) =
        (fun _ => true) := rfl
    rw [this, List.filter_true]

/-- Witness for C1 (amended) at the concrete one-case listing with a filter
matching only the case name "Bar". -/
theorem gtest_filter_matches_case_name_witness :
    get_tests_from_gtest_executable sampleExec false ["-v"] (some (fun s => s == "Bar"))
        (gtestEnvOf fooBarJson) fsNone [] =
      .ok (((gtest_suite_case_pairs fooBarJson).filter
          (fun p => (fun s => s == "Bar") p.2.name)).map
        (fun p => mk_gtest_test sampleExec ["-v"] fsNone [] p.1 p.2))
    ∧ get_tests_from_gtest_executable sampleExec false ["-v"] none
        (gtestEnvOf fooBarJson) fsNone [] =
      .ok ((gtest_suite_case_pairs fooBarJson).map
        (fun p => mk_gtest_test sampleExec ["-v"] fsNone [] p.1 p.2)) :=
  gtest_filter_matches_case_name sampleExec ["-v"] (fun s => s == "Bar")
    (gtestEnvOf fooBarJson) fsNone []
    { statusSuccess := true, stdout := "", stderr := "listing" } fooBarJson
    rfl rfl rfl

/-- Counterexample to C2: the caller-supplied extra arguments are appended
verbatim, including one that itself specifies a gtest filter, whereas the
claim says such an extra argument is excluded. -/
theorem gtest_args_keep_filter_extras_counterexample :
    get_tests_from_gtest_executable sampleExec false ["--gtest_filter=Zoo"] none
        (gtestEnvOf fooBarJson) fsNone [] =
      .ok [{ name := "Foo.Bar", file := none, line := some 3, executable := sampleExec
             arguments := ["--gtest_filter=Foo.Bar", "--gtest_also_run_disabled_tests",
               "--gtest_filter=Zoo"]
             index := none }]
    ∧ spec_args_excluding_filter "Foo.Bar" ["--gtest_filter=Zoo"] =
        ["--gtest_filter=Foo.Bar", "--gtest_also_run_disabled_tests"]
    ∧ ["--gtest_filter=Foo.Bar", "--gtest_also_run_disabled_tests",
        "--gtest_filter=Zoo"] ≠
        spec_args_excluding_filter "Foo.Bar" ["--gtest_filter=Zoo"] :=
  ⟨rfl, rfl, by decide⟩

/-- C2 (amended): every Test enumerated from a gtest listing is named
"<suite>.<case>" for a listed pair, and its argument list is the framework
filter flag selecting exactly that name, then the flag also running
disabled cases, then ALL caller-supplied extra arguments verbatim — no
extra argument is excluded, not even one specifying a filter. -/
theorem gtest_case_args_shape (executable : Executable) (extra_args : List String)
    (filter : Option (String → Bool)) (env : GtestProcessEnv) (fs : Fs)
    (exec_parent : List String) (out : ProcessOutput) (json : GtestJson)
    (tests : List Test) (t : Test)
    (h1 : env.listOutput = some out) (h2 : out.statusSuccess = true)
    (h3 : env.parseGtestJson out.stderr = some json)
    (h4 : get_tests_from_gtest_executable executable false extra_args filter env fs
        exec_parent = .ok tests)
    (ht : t ∈ tests) :
    (∃ p ∈ gtest_suite_case_pairs json, t.name = p.1 ++ "." ++ p.2.name)
    ∧ t.arguments =
        ["--gtest_filter=" ++ t.name, "--gtest_also_run_disabled_tests"] ++ extra_args := by
  unfold get_tests_from_gtest_executable at h4
  rw [h1] at h4
  simp only [h2, Bool.not_true, Bool.false_eq_true, if_false, h3] at h4
  rw [gtest_case_tests_eq_pairs] at h4
  have htests := (Except.ok.injEq _ _).mp h4
  subst htests
  rcases List.mem_map.mp ht with ⟨p, hp, rfl⟩
  exact ⟨⟨p, (List.mem_filter.mp hp).1, rfl⟩, rfl⟩

/-- Witness for C2 (amended) at the concrete one-case listing and an extra
argument list. -/
theorem gtest_case_args_shape_witness :
    (∃ p ∈ gtest_suite_case_pairs fooBarJson, fooBarEnumTest.name = p.1 ++ "." ++ p.2.name)
    ∧ fooBarEnumTest.arguments =
        ["--gtest_filter=" ++ fooBarEnumTest.name, "--gtest_also_run_disabled_tests"] ++
          ["-v"] :=
  gtest_case_args_shape sampleExec ["-v"] none (gtestEnvOf fooBarJson) fsNone []
    { statusSuccess := true, stdout := "", stderr := "listing" } fooBarJson
    [fooBarEnumTest] fooBarEnumTest rfl rfl rfl rfl (List.mem_singleton.mpr rfl)

/-- Counterexample to C4: in executables-only mode the gtest listing
invocation is not skipped — its outcome still decides the result. With a
listing whose exit status is non-zero, enumeration fails instead of
producing the single per-executable Test. -/
theorem executables_only_still_invokes_listing_counterexample :
    get_tests_from_gtest_executable sampleExec true [] none gtestEnvFailing fsNone [] =
      .error .notAGtestExecutable
    ∧ get_tests_from_gtest_executable sampleExec true [] none gtestEnvFailing fsNone [] ≠
        .ok [exec_only_test sampleExec []] :=
  ⟨rfl, fun h => Except.noConfusion (rfl.trans h)⟩

/-- C4 (amended): in executables-only mode no per-test enumeration occurs,
but the executable is still invoked: the gtest listing must exit
successfully and parse, and the catch2 identification probe must succeed
and report Catch2; when they do, exactly one Test is produced per
executable, named by the executable's own path, with no file and no line,
and with the caller-supplied extra arguments verbatim. -/
theorem executables_only_single_test (executable : Executable) (extra_args : List String)
    (filter : Option (String → Bool)) (genv : GtestProcessEnv) (cenv : Catch2ProcessEnv)
    (fs : Fs) (exec_parent : List String) (gout : ProcessOutput) (json : GtestJson)
    (cout : ProcessOutput)
    (hg1 : genv.listOutput = some gout) (hg2 : gout.statusSuccess = true)
    (hg3 : genv.parseGtestJson gout.stderr = some json)
    (hc1 : cenv.identifyOutput = some cout) (hc2 : cout.statusSuccess = true)
    (hc3 : is_catch2_identify_output cout.stdout = true) :
    get_tests_from_gtest_executable executable true extra_args filter genv fs exec_parent =
      .ok [{ name := executable.path, file := none, line := none, executable := executable
             arguments := extra_args, index := none }]
    ∧ get_tests_from_catch2_executable executable true extra_args filter cenv fs
        exec_parent =
      .ok [{ name := executable.path, file := none, line := none, executable := executable
             arguments := extra_args, index := none }] := by
  constructor
  · unfold get_tests_from_gtest_executable
    rw [hg1]
    simp only [hg2, Bool.not_true, Bool.false_eq_true, if_false, hg3, if_true]
    rfl
  · unfold get_tests_from_catch2_executable
    rw [hc1]
    simp only [hc2, hc3, Bool.not_true, Bool.false_eq_true, if_false, if_true]
    rfl

/-- Witness for C4 (amended) at concrete successful environments. -/
theorem executables_only_single_test_witness :
    get_tests_from_gtest_executable sampleExec true ["-v"] none (gtestEnvOf fooBarJson)
        fsNone [] =
      .ok [{ name := sampleExec.path, file := none, line := none, executable := sampleExec
             arguments := ["-v"], index := none }]
    ∧ get_tests_from_catch2_executable sampleExec true ["-v"] none catch2EnvOk fsNone [] =
      .ok [{ name := sampleExec.path, file := none, line := none, executable := sampleExec
             arguments := ["-v"], index := none }] :=
  executables_only_single_test sampleExec ["-v"] none (gtestEnvOf fooBarJson) catch2EnvOk
    fsNone [] { statusSuccess := true, stdout := "", stderr := "listing" } fooBarJson
    catch2IdentifyOut rfl rfl rfl rfl rfl (by rfl)

/-- C8: the catch2 enumeration issues the --libidentify probe first;
whenever the probe exits non-zero, or its standard output has no line whose
colon-split key trims to "framework" with value trimming to "Catch2",
enumeration returns the empty test list rather than an error (in any mode,
before the executables-only branch and the listing invocation are ever
reached). -/
theorem catch2_probe_failure_yields_empty (executable : Executable)
    (executable_only : Bool) (extra_args : List String)
    (filter : Option (String → Bool)) (cenv : Catch2ProcessEnv) (fs : Fs)
    (exec_parent : List String) (out : ProcessOutput)
    (h1 : cenv.identifyOutput = some out)
    (h2 : out.statusSuccess = false ∨ is_catch2_identify_output out.stdout = false) :
    get_tests_from_catch2_executable executable executable_only extra_args filter cenv fs
      exec_parent = .ok [] := by
  unfold get_tests_from_catch2_executable
  rw [h1]
  rcases h2 with h | h <;> simp [h]

/-- Witness for C8: a probe exiting non-zero and a probe whose output lacks
the framework line both yield the empty enumeration. -/
theorem catch2_probe_failure_yields_empty_witness :
    get_tests_from_catch2_executable sampleExec false ["-v"] none catch2EnvFailing fsNone
      [] = .ok []
    ∧ get_tests_from_catch2_executable sampleExec true [] none
        { identifyOutput := some { statusSuccess := true, stdout := "name: x\n", stderr := "" }
          listOutput := none, parseCatch2Json := fun _ => none } fsNone [] = .ok [] :=
  ⟨catch2_probe_failure_yields_empty sampleExec false ["-v"] none catch2EnvFailing fsNone
      [] { statusSuccess := false, stdout := "", stderr := "" } rfl (Or.inl rfl),
   catch2_probe_failure_yields_empty sampleExec true [] none
      { identifyOutput := some { statusSuccess := true, stdout := "name: x\n", stderr := "" }
        listOutput := none, parseCatch2Json := fun _ => none } fsNone []
      { statusSuccess := true, stdout := "name: x\n", stderr := "" } rfl
      (Or.inr (by rfl))⟩

lemma passed_count_add_failed_count (completions : List Completion) :
    (completions.filter (fun c => c.passed)).length +
      (completions.filter (fun c => !c.passed)).length = completions.length := by
  induction completions with
  | nil => rfl
  | cons c rest ih =>
    rw [List.filter_cons, List.filter_cons]
    cases hp : c.passed <;> simp [hp] <;> omega

lemma run_print_loop_ks (n : Nat) (completions : List Completion) (start : Nat)
    (lines : List (Nat × String))
    (h : run_print_loop n start completions = .ok lines) :
    lines.map Prod.fst = List.range' (start + 1) completions.length := by
  induction completions generalizing start lines with
  | nil =>
    rw [run_print_loop] at h
    cases h
    rfl
  | cons c rest ih =>
    rw [run_print_loop] at h
    cases hf : format_status_line (start + 1) n c.name c.passed with
    | none => rw [hf] at h; cases h
    | some line =>
      rw [hf] at h
      cases hr : run_print_loop n (start + 1) rest with
      | error e => rw [hr] at h; cases h
      | ok rl =>
        rw [hr] at h
        cases h
        rw [List.length_cons, List.range'_succ, List.map_cons, ih (start + 1) rl hr]

/-- Counterexample to C5: the summary's pluralization is not grammatically
correct for the count 0 — run_all prints "0 test failed" where correct
English wording is "0 tests failed". -/
theorem run_all_pluralization_counterexample :
    (run_all [{ name := "t", passed := true, stdout := "" }]).map (fun r => r.2) =
      .ok "1 test passed, 0 test failed"
    ∧ english_summary_line 1 0 = "1 test passed, 0 tests failed"
    ∧ "1 test passed, 0 test failed" ≠ english_summary_line 1 0 :=
  ⟨rfl, rfl, by decide⟩

/-- C5 (amended): a run of run_all over N tests of which F exit non-zero
that completes without a padding panic prints exactly N progress lines
whose print-sequence numbers are 1..N in emission order — each exactly
once, strictly increasing — and prints a summary reporting exactly N − F
passed and F failed, worded with the source's pluralization, which uses
the plural "tests" only for counts greater than 1 (so the count 0 is
worded "0 test", not grammatically correct English). -/
theorem run_all_progress_and_summary (completions : List Completion)
    (lines : List (Nat × String)) (s : String)
    (h : run_all completions = .ok (lines, s)) :
    lines.map Prod.fst = List.range' 1 completions.length
    ∧ s = summary_line
        (completions.length - (completions.filter (fun c => !c.passed)).length)
        ((completions.filter (fun c => !c.passed)).length) := by
  have h5 : run_print_loop completions.length 0 completions = .ok lines
      ∧ summary_line ((completions.filter (fun c => c.passed)).length)
          (completions.length - (completions.filter (fun c => c.passed)).length) = s := by
    unfold run_all at h
    revert h
    cases hl : run_print_loop completions.length 0 completions with
    | error e => intro hc; cases hc
    | ok progress =>
      intro hc
      have hpair := (Except.ok.injEq _ _).mp hc
      have hfst : progress = lines := congrArg Prod.fst hpair
      have hsnd : summary_line ((completions.filter (fun c => c.passed)).length)
          (completions.length - (completions.filter (fun c => c.passed)).length) = s :=
        congrArg Prod.snd hpair
      exact ⟨by rw [hfst], hsnd⟩
  obtain ⟨hLines, hS⟩ := h5
  have hcount := passed_count_add_failed_count completions
  constructor
  · exact run_print_loop_ks completions.length completions 0 lines hLines
  · rw [← hS]
    congr 1 <;> omega

/-- Witness for C5 (amended): three passing and two failing tests yield the
lines numbered 1..5 and the summary "3 tests passed, 2 tests failed". -/
theorem run_all_progress_and_summary_witness :
    ((run_all
      [{ name := "a", passed := true, stdout := "" },
       { name := "b", passed := false, stdout := "" },
       { name := "c", passed := true, stdout := "" },
       { name := "d", passed := false, stdout := "" },
       { name := "e", passed := true, stdout := "" }]).map
        (fun r => (r.1.map Prod.fst, r.2))) =
      .ok ([1, 2, 3, 4, 5], "3 tests passed, 2 tests failed") := by
  cases hrun : run_all
      [{ name := "a", passed := true, stdout := "" },
       { name := "b", passed := false, stdout := "" },
       { name := "c", passed := true, stdout := "" },
       { name := "d", passed := false, stdout := "" },
       { name := "e", passed := true, stdout := "" }] with
  | error e =>
    have hok : (run_all
        [{ name := "a", passed := true, stdout := "" },
         { name := "b", passed := false, stdout := "" },
         { name := "c", passed := true, stdout := "" },
         { name := "d", passed := false, stdout := "" },
         { name := "e", passed := true, stdout := "" }]).isOk = true := rfl
    rw [hrun] at hok
    exact Bool.noConfusion hok
  | ok r =>
    obtain ⟨lines, s⟩ := r
    have hprops := run_all_progress_and_summary _ lines s hrun
    simp only [Except.map]
    rw [hprops.1, hprops.2]
    rfl

lemma run_print_loop_error_of_overflow (n : Nat) (l : List Completion) (start i : Nat)
    (hi : i < l.length)
    (hover : 120 < status_line_width (start + i + 1) n ((l.get ⟨i, hi⟩).name)) :
    run_print_loop n start l = .error .panicked := by
  induction l generalizing start i with
  | nil => exact absurd hi (by simp)
  | cons c rest ih =>
    rw [run_print_loop]
    cases i with
    | zero =>
      have hover0 : 120 < status_line_width (start + 1) n c.name := hover
      have hnone : format_status_line (start + 1) n c.name c.passed = none := by
        unfold status_line_width at hover0
        cases hp : c.passed
        · simp only [format_status_line, hp, if_false, Bool.false_eq_true]
          exact if_neg (by
            have h7 : (" FAILED" : String).length = 7 := rfl
            omega)
        · simp only [format_status_line, hp, if_true]
          exact if_neg (by
            have h7 : (" PASSED" : String).length = 7 := rfl
            omega)
      rw [hnone]
    | succ j =>
      cases hf : format_status_line (start + 1) n c.name c.passed with
      | none => rfl
      | some line =>
        have hj : j < rest.length := by simpa using hi
        have hrec := ih (start + 1) j hj (by
          have heq : start + 1 + j + 1 = start + (j + 1) + 1 := by omega
          rw [heq]
          exact hover)
        rw [hrec]

/-- C9: run_all pads each progress line with dots counted by the unchecked
usize subtraction 120 − len("[k/N] name ") − len(" PASSED"/" FAILED"); for
a completion order in which some test's prefix and suffix exceed 120
characters at its print-sequence number, the subtraction underflows and
run_all panics instead of printing that line. -/
theorem run_all_panics_on_long_line (completions : List Completion) (i : Nat)
    (hi : i < completions.length)
    (hover : 120 < status_line_width (i + 1) completions.length
        ((completions.get ⟨i, hi⟩).name)) :
    run_all completions = .error .panicked := by
  unfold run_all
  rw [run_print_loop_error_of_overflow completions.length completions 0 i hi
    (by simpa using hover)]

set_option maxRecDepth 100000 in
/-- Witness for C9: a 120-character test name overflows the padding and the
run panics. -/
theorem run_all_panics_on_long_line_witness :
    run_all [{ name := String.mk (List.replicate 120 (Char.ofNat 97)), passed := true,
               stdout := "" }] = .error .panicked :=
  run_all_panics_on_long_line
    [{ name := String.mk (List.replicate 120 (Char.ofNat 97)), passed := true,
       stdout := "" }] 0 (by decide) (by decide)
